import Mathlib

/-!
# Digitarr — verification of the filtering/orchestration pipeline

Shallow embedding of the digitarr repository (src/config_manager.py,
src/dvd_release_checker.py, src/main.py, src/riven_requester.py) together
with proofs about the spec's claims.

Release records are Python dictionaries in the source; they are embedded as
a structure of `Option` fields, where `none` models an absent key and
`Option.getD`-style access models `dict.get(key, default)`.  Network calls
are modelled by an explicit environment that fixes every response, and the
sequence of HTTP calls a function issues is returned as an explicit trace.
Python floats are modelled as `Rat` (all comparisons in the source are
order comparisons on decimal literals, faithfully mirrored by `Rat`).
-/

namespace Digitarr

/-- `str(x)` for an optional integer value: Python renders `None` as
`"None"` and an int as its decimal form. -/
def pyStr : Option Nat → String
  | none => "None"
  | some n => toString n

/-- Python truthiness of an optional integer (`None` and `0` are falsy). -/
def truthyNat : Option Nat → Bool
  | none => false
  | some n => n != 0

/-- Python truthiness of a string (empty is falsy). -/
def truthyStr (s : String) : Bool := s != ""

/-- Python whitespace for `str.strip()`. -/
def isPySpace (c : Char) : Bool :=
  c == ' ' || c == '\t' || c == '\n' || c == '\r' || c == '\x0b' || c == '\x0c'

/-- `str.strip()` (whitespace trimming at both ends). -/
def pyStrip (s : String) : String :=
  String.mk (((s.toList.dropWhile isPySpace).reverse.dropWhile isPySpace).reverse)

/-- `str.lower()` (ASCII lowering, which is all configuration values use). -/
def pyLower (s : String) : String :=
  String.mk (s.toList.map Char.toLower)

/-- Helper for `str.split(",")`: split a character list at every comma. -/
def splitAtCommas : List Char → List (List Char)
  | [] => [[]]
  | x :: rest =>
    let r := splitAtCommas rest
    if x == ',' then [] :: r
    else
      match r with
      | [] => [[x]]
      | h :: t => (x :: h) :: t

/-- `str.split(",")`. -/
def pySplitComma (s : String) : List String :=
  (splitAtCommas s.toList).map String.mk

/-- Whether the second list starts with the first. -/
def leadChars : List Char → List Char → Bool
  | [], _ => true
  | _ :: _, [] => false
  | a :: as, b :: bs => a == b && leadChars as bs

/-- `str.startswith(p)`. -/
def leadsWith (p s : String) : Bool :=
  leadChars p.toList s.toList

/-- A release record (a Python dict in the source).  `type_` is the
`"type"` key tested by `RivenRequester.add_media`; `media_type` and `id`
are the keys produced by `DVDReleaseChecker._lookup_on_tmdb`. -/
structure Release where
  tmdb_id : Option Nat := none
  id : Option Nat := none
  type_ : Option String := none
  media_type : Option String := none
  title : Option String := none
  overview : Option String := none
  vote_average : Option Rat := none
  release_date : Option String := none
  original_language : Option String := none
  adult : Option Bool := none
  genre_names : List String := []
  certification : Option String := none
  deriving DecidableEq

/-! ## RivenRequester (src/riven_requester.py) -/

/-- One item of the `GET /api/v1/items` response body. -/
structure UnknownItem where
  tmdb_id : Option Nat := none
  id : Option Nat := none
  deriving DecidableEq

/-- Environment fixing every network response a `RivenRequester` call can
see: status codes (`none` models a raised request exception) and the
Unknown-items response body. -/
structure RivenEnv where
  unknownRaises : Bool := false
  unknownStatus : Nat := 200
  unknownItems : List UnknownItem := []
  removeRaises : Bool := false
  removeStatus : Nat := 200
  addStatus : Option Nat := some 200
  addErrMsg : String := ""
  deriving DecidableEq

/-- One HTTP call issued by the requester, in order. -/
inductive RivenCall where
  | getItems (media_type : String)
  | removeItems (ids : List String)
  | addItems (media_type : String) (tmdb_ids : List String)
  deriving DecidableEq

/-- One entry of a Riven result's `results` list. -/
inductive ResultDetail where
  | success (ids : List String)
  | error (code : Option Nat) (message : Option String)
  deriving DecidableEq

/-- The dictionary returned by `add_media` / `_add_items`. -/
structure RivenResult where
  success : Nat
  failed : Nat
  results : List ResultDetail
  deriving DecidableEq

/-- Lookup in a Python dict built by a comprehension: later bindings of
the same key overwrite earlier ones, so the last matching pair wins. -/
def pyDictGet (m : List (String × String)) (k : String) : Option String :=
  (m.filter (fun p => p.1 == k)).getLast?.map (fun p => p.2)

/-- `RivenRequester._get_unknown_items`: on a 200 response, the dict
`{str(item.get("tmdb_id")): str(item.get("id")) for item in items if
item.get("tmdb_id")}`; on any other status or on an exception, `{}`. -/
def getUnknownMap (env : RivenEnv) : List (String × String) :=
  if env.unknownRaises then []
  else if env.unknownStatus = 200 then
    (env.unknownItems.filter (fun it => truthyNat it.tmdb_id)).map
      (fun it => (pyStr it.tmdb_id, pyStr it.id))
  else []

/-- `[str(r.get("tmdb_id")) for r in releases if r.get("tmdb_id")]`. -/
def tmdbIds (releases : List Release) : List String :=
  (releases.filter (fun r => truthyNat r.tmdb_id)).map (fun r => pyStr r.tmdb_id)

/-- The loop collecting internal ids of targets found in the Unknown map. -/
def itemsToRemove (ids : List String) (m : List (String × String)) : List String :=
  ids.filterMap (fun tid => pyDictGet m tid)

/-- `RivenRequester._add_items`, returning the result dict together with
the trace of HTTP calls issued.  The body's `try` block only sees
exceptions from the final `requests.post` (`env.addStatus = none`), since
`_get_unknown_items` and `_remove_items` catch their own. -/
def addItemsCall (env : RivenEnv) (media_type : String) (releases : List Release) :
    RivenResult × List RivenCall :=
  let ids := tmdbIds releases
  if ids.isEmpty then
    ({ success := 0, failed := releases.length, results := [] }, [])
  else
    let m := getUnknownMap env
    let toRemove := itemsToRemove ids m
    let trace := [RivenCall.getItems media_type]
      ++ (if toRemove.isEmpty then [] else [RivenCall.removeItems toRemove])
      ++ [RivenCall.addItems media_type ids]
    match env.addStatus with
    | none =>
      ({ success := 0, failed := releases.length,
         results := [ResultDetail.error none (some env.addErrMsg)] }, trace)
    | some s =>
      if s = 200 then
        ({ success := ids.length, failed := 0,
           results := [ResultDetail.success ids] }, trace)
      else if s = 404 then
        ({ success := 0, failed := ids.length,
           results := [ResultDetail.error (some 404) (some "Not found")] }, trace)
      else if s = 422 then
        ({ success := 0, failed := ids.length,
           results := [ResultDetail.error (some 422) (some "Validation error")] }, trace)
      else
        ({ success := 0, failed := ids.length,
           results := [ResultDetail.error (some s) none] }, trace)

/-- The `riven` section of the configuration seen by the requester. -/
structure RivenConfig where
  api_url : String
  api_key : String
  deriving DecidableEq

/-- `RivenRequester.is_enabled`: both API key and URL must be truthy. -/
def isEnabled (c : RivenConfig) : Bool :=
  truthyStr c.api_key && truthyStr c.api_url

/-- `RivenRequester.add_media`: early-return when disabled, then select
releases whose `"type"` key equals `"movie"` and hand them to
`_add_items`. -/
def addMedia (c : RivenConfig) (env : RivenEnv) (releases : List Release) :
    RivenResult × List RivenCall :=
  if !isEnabled c then ({ success := 0, failed := 0, results := [] }, [])
  else
    let movies := releases.filter (fun r => r.type_ == some "movie")
    if movies.isEmpty then ({ success := 0, failed := 0, results := [] }, [])
    else addItemsCall env "movie" movies

/-- The release-record shape built by `DVDReleaseChecker._lookup_on_tmdb`
(src/dvd_release_checker.py lines 160–172): keys `id` and
`media_type = "movie"`, and no `type` or `tmdb_id` key. -/
def dvdSourceRelease (movieId : Nat) (titleStr : String) : Release :=
  { id := some movieId
    title := some titleStr
    overview := some ""
    vote_average := some 0
    release_date := some ""
    original_language := some "en"
    adult := some false
    genre_names := []
    certification := some ""
    media_type := some "movie" }

/-! ## Filter Engine (spec §4.1) -/

/-- The `filters` section of the configuration. -/
structure FilterConfig where
  min_tmdb_rating : Rat := 0
  exclude_adult : Bool := true
  allowed_languages : List String := []
  excluded_genres : List String := []
  excluded_certifications : List String := []
  deriving DecidableEq

/-- Modelled from the spec: `filters.py` (`FilterEngine`) is imported by
`main.py` but is not present in the sources; this is the per-release
admission test of spec §4.1 (five conjunctive rules, missing rating read
as 0, case-sensitive language membership, case-insensitive genre and
certification matching, empty certification always passing). -/
def passesFilters (cfg : FilterConfig) (r : Release) : Bool :=
  decide (cfg.min_tmdb_rating ≤ r.vote_average.getD 0)
  && (!cfg.exclude_adult || !(r.adult.getD false))
  && (cfg.allowed_languages.isEmpty
      || cfg.allowed_languages.contains (r.original_language.getD ""))
  && (cfg.excluded_genres.isEmpty
      || !(r.genre_names.any (fun g =>
            cfg.excluded_genres.any (fun e => pyLower e == pyLower g))))
  && (cfg.excluded_certifications.isEmpty
      || (r.certification.getD "") == ""
      || !(cfg.excluded_certifications.any
            (fun e => pyLower e == pyLower (r.certification.getD ""))))

/-- Modelled from the spec: `FilterEngine.apply_filters`, keeping exactly
the releases that pass the admission test, in input order. -/
def applyFilters (cfg : FilterConfig) (releases : List Release) : List Release :=
  releases.filter (passesFilters cfg)

/-! ## Orchestrator `run_check` (src/main.py lines 36–106) -/

/-- Per-release outcome flags (`{"overseerr": bool, "riven": bool}`). -/
structure Flags where
  overseerr : Bool
  riven : Bool
  deriving DecidableEq

/-- The `release_results` dict: string keys in insertion order. -/
abbrev Table := List (String × Flags)

/-- `str(release.get("tmdb_id", ""))`: the empty string when the key is
absent, the decimal form of the id otherwise. -/
def pyKey (r : Release) : String :=
  match r.tmdb_id with
  | none => ""
  | some n => toString n

/-- Python dict lookup (keys are unique, first binding wins). -/
def tableGet : Table → String → Option Flags
  | [], _ => none
  | (k', fl) :: t, k => if k' == k then some fl else tableGet t k

/-- Whether a key is present in the table. -/
def hasKey : Table → String → Bool
  | [], _ => false
  | (k', _) :: t, k => k' == k || hasKey t k

/-- `if tmdb_id not in release_results: release_results[tmdb_id] =
{"overseerr": False, "riven": False}`. -/
def ensureKey (t : Table) (k : String) : Table :=
  if hasKey t k then t else t ++ [(k, ⟨false, false⟩)]

/-- `release_results[k]["overseerr"] = True`. -/
def setOv : Table → String → Table
  | [], _ => []
  | (k', fl) :: t, k =>
    if k' == k then (k', { fl with overseerr := true }) :: setOv t k
    else (k', fl) :: setOv t k

/-- `release_results[k]["riven"] = True`. -/
def setRiv : Table → String → Table
  | [], _ => []
  | (k', fl) :: t, k =>
    if k' == k then (k', { fl with riven := true }) :: setRiv t k
    else (k', fl) :: setRiv t k

/-- Outcome of one `overseerr_requester.request_media(release)` call:
truthy result, falsy result, or a raised exception. -/
inductive OResp where
  | ok
  | notOk
  | exn
  deriving DecidableEq

/-- Accumulator of the Overseerr loop: the outcome table, the success and
failure tallies, and the number of submission attempts made. -/
structure OvAcc where
  table : Table
  succ : Nat
  fail : Nat
  att : Nat
  deriving DecidableEq

/-- One iteration of the Overseerr loop in `run_check`: ensure the
release's key exists, attempt `request_media`, then tally; an exception is
caught and counted exactly like a falsy result. -/
def ovStep (resp : Release → OResp) (a : OvAcc) (r : Release) : OvAcc :=
  let t := ensureKey a.table (pyKey r)
  match resp r with
  | OResp.ok =>
    { table := setOv t (pyKey r), succ := a.succ + 1, fail := a.fail, att := a.att + 1 }
  | OResp.notOk =>
    { table := t, succ := a.succ, fail := a.fail + 1, att := a.att + 1 }
  | OResp.exn =>
    { table := t, succ := a.succ, fail := a.fail + 1, att := a.att + 1 }

/-- The whole Overseerr loop over the filtered releases. -/
def ovLoop (resp : Release → OResp) (rs : List Release) (a : OvAcc) : OvAcc :=
  rs.foldl (ovStep resp) a

/-- The Riven marking loop: for each filtered release, ensure its key and
set the `riven` flag. -/
def markRivAll (t : Table) (ks : List String) : Table :=
  ks.foldl (fun t k => setRiv (ensureKey t k) k) t

/-- Everything `run_check` computes that the claims talk about. -/
structure RunResult where
  table : Table
  ovSucc : Nat
  ovFail : Nat
  ovAttempts : Nat
  rivSucc : Nat
  rivFail : Nat
  rivenCalled : Bool
  notified : Bool
  deriving DecidableEq

/-- The Riven step's outcome: the updated table, the two counters, and
whether `add_media` was invoked. -/
structure RivPhase where
  table : Table
  succ : Nat
  fail : Nat
  called : Bool
  deriving DecidableEq

/-- The Riven block of `run_check`: when a requester exists and the
filtered set is non-empty, call `add_media` once with the entire filtered
set and, if the aggregate success count is positive, mark every filtered
release's `riven` flag. -/
def rivenPhase (rivenCfg : Option RivenConfig) (env : RivenEnv)
    (filtered : List Release) (t : Table) : RivPhase :=
  match rivenCfg with
  | some rc =>
    if !filtered.isEmpty then
      let res := (addMedia rc env filtered).1
      { table := if res.success > 0 then markRivAll t (filtered.map pyKey) else t,
        succ := res.success, fail := res.failed, called := true }
    else { table := t, succ := 0, fail := 0, called := false }
  | none => { table := t, succ := 0, fail := 0, called := false }

/-- The Overseerr block of `run_check`: when a requester exists and the
filtered set is non-empty, submit each filtered release independently. -/
def ovPhase (ovPresent : Bool) (resp : Release → OResp) (filtered : List Release) : OvAcc :=
  if ovPresent && !filtered.isEmpty then ovLoop resp filtered ⟨[], 0, 0, 0⟩
  else ⟨[], 0, 0, 0⟩

/-- `run_check` (src/main.py): source output → filter → Overseerr loop →
Riven batch call with all-or-nothing marking → summary → notification.
`ovPresent` is `overseerr_requester` being non-`None`; `rivenCfg` is the
requester constructed in `main` when the Riven API key is set; `resp`
gives each `request_media` outcome; `discordEnabled` is
`discord_notifier.is_enabled()`. -/
def runCheck (ovPresent : Bool) (rivenCfg : Option RivenConfig) (env : RivenEnv)
    (discordEnabled : Bool) (resp : Release → OResp) (fcfg : FilterConfig)
    (releases : List Release) : RunResult :=
  let filtered := applyFilters fcfg releases
  let a := ovPhase ovPresent resp filtered
  let rp := rivenPhase rivenCfg env filtered a.table
  { table := rp.table, ovSucc := a.succ, ovFail := a.fail, ovAttempts := a.att,
    rivSucc := rp.succ, rivFail := rp.fail, rivenCalled := rp.called,
    notified := discordEnabled && !rp.table.isEmpty }

/-! ## Scheduler (src/main.py lines 174–198) -/

/-- A naive local datetime, as `datetime.now()` provides it. -/
structure DT where
  year : Nat
  month : Nat
  day : Nat
  hour : Nat
  minute : Nat
  second : Nat
  deriving DecidableEq

/-- Gregorian leap-year rule (as Python's `datetime` uses). -/
def isLeap (y : Nat) : Bool :=
  (y % 4 == 0 && y % 100 != 0) || y % 400 == 0

/-- Days in a month of a given year. -/
def daysInMonth (y m : Nat) : Nat :=
  if m = 2 then (if isLeap y then 29 else 28)
  else if m = 4 ∨ m = 6 ∨ m = 9 ∨ m = 11 then 30
  else 31

/-- Chronological `≤` on datetimes. -/
def dtLe (a b : DT) : Bool :=
  if a.year ≠ b.year then a.year < b.year
  else if a.month ≠ b.month then a.month < b.month
  else if a.day ≠ b.day then a.day < b.day
  else if a.hour ≠ b.hour then a.hour < b.hour
  else if a.minute ≠ b.minute then a.minute < b.minute
  else a.second ≤ b.second

/-- `now.replace(hour=..., minute=..., second=0, microsecond=0)`. -/
def replaceTime (now : DT) (h m : Nat) : DT :=
  { now with hour := h, minute := m, second := 0 }

/-- `dt.replace(day=newDay)`: Python raises `ValueError` (here `none`)
when the day is out of range for the datetime's month. -/
def replaceDay (d : DT) (newDay : Nat) : Option DT :=
  if 1 ≤ newDay ∧ newDay ≤ daysInMonth d.year d.month then
    some { d with day := newDay }
  else none

/-- The next-run computation at the top of the scheduled `while` loop:
replace the time of day with the configured run time, and if that instant
has already passed, move to `now.day + 1` via `replace` — which raises at
month end. -/
def nextRunCalc (runHour runMinute : Nat) (now : DT) : Option DT :=
  let nr := replaceTime now runHour runMinute
  if dtLe nr now then replaceDay nr (now.day + 1) else some nr

/-- One iteration of the scheduled loop: the wall clock at its start, and
whether the guarded check body (`run_check` or the pre-check delay)
raises during it. -/
structure Cycle where
  now : DT
  checkRaises : Bool
  deriving DecidableEq

/-- The scheduled `while True` loop of `main`, run for a finite list of
cycles.  `some 1` means an exception escaped the loop, was caught by the
outer handler of `main`, and the process returned exit code 1; `none`
means the loop is still running after these cycles.  The inner
`try`/`except` swallows `checkRaises`; the next-run computation sits
outside it. -/
def scheduledLoop (runHour runMinute : Nat) : List Cycle → Option Nat
  | [] => none
  | c :: rest =>
    match nextRunCalc runHour runMinute c.now with
    | none => some 1
    | some _ => scheduledLoop runHour runMinute rest

/-! ## ConfigManager (src/config_manager.py) -/

/-- An environment value is blank when the variable is unset or strips to
the empty string (`if value is not None and value.strip():`). -/
def blankEnv : Option String → Bool
  | none => true
  | some s => pyStrip s == ""

/-- Fold a digit list into a number; `none` on a non-digit or on an empty
list. -/
def digitsToNat? (cs : List Char) : Option Nat :=
  if cs.isEmpty then none
  else
    cs.foldl
      (fun acc c =>
        match acc with
        | none => none
        | some n => if c.isDigit then some (n * 10 + (c.toNat - 48)) else none)
      (some 0)

/-- Python `int()` applied to a string: surrounding whitespace stripped,
optional sign, decimal digits; `none` models the raised `ValueError`. -/
def pyParseInt (s : String) : Option Int :=
  match (pyStrip s).toList with
  | '+' :: rest => (digitsToNat? rest).map (fun n => (n : Int))
  | '-' :: rest => (digitsToNat? rest).map (fun n => -(n : Int))
  | t => (digitsToNat? t).map (fun n => (n : Int))

/-- Digits of an unsigned decimal literal `intPart [ '.' fracPart ]`, as a
rational; `none` models `ValueError`. -/
def parseUnsignedRat? (cs : List Char) : Option Rat :=
  let intPart := cs.takeWhile (fun c => c.isDigit)
  let rest := cs.drop intPart.length
  match rest with
  | [] => (digitsToNat? intPart).map (fun n => (n : Rat))
  | '.' :: frac =>
    if frac.all (fun c => c.isDigit) then
      if intPart.isEmpty && frac.isEmpty then none
      else
        some (((digitsToNat? intPart).getD 0 : Rat)
          + ((digitsToNat? frac).getD 0 : Rat) / ((10 : Rat) ^ frac.length))
    else none
  | _ => none

/-- Python `float()` on plain decimal literals (the form configuration
values take): surrounding whitespace stripped, optional sign, digits with
an optional fractional part. -/
def pyParseFloat (s : String) : Option Rat :=
  match (pyStrip s).toList with
  | '+' :: rest => parseUnsignedRat? rest
  | '-' :: rest => (parseUnsignedRat? rest).map (fun q => -q)
  | t => parseUnsignedRat? t

/-- A non-blank string-typed override stores the raw (unstripped) value;
otherwise the current value is kept. -/
def ovrStr (v : Option String) (cur : String) : String :=
  match v with
  | some s => if truthyStr (pyStrip s) then s else cur
  | none => cur

/-- A non-blank bool-typed override stores
`value.lower() in ("true", "1", "yes", "on")`. -/
def ovrBool (v : Option String) (cur : Bool) : Bool :=
  match v with
  | some s =>
    if truthyStr (pyStrip s) then
      ["true", "1", "yes", "on"].contains (pyLower s)
    else cur
  | none => cur

/-- A non-blank list-typed override stores
`[item.strip() for item in value.split(",") if item.strip()]`. -/
def ovrList (v : Option String) (cur : List String) : List String :=
  match v with
  | some s =>
    if truthyStr (pyStrip s) then
      ((pySplitComma s).map pyStrip).filter (fun i => i != "")
    else cur
  | none => cur

/-- A non-blank float-typed override stores `float(value)`; a parse
failure raises out of `load_config`. -/
def ovrFloat (v : Option String) (cur : Rat) : Except String Rat :=
  match v with
  | some s =>
    if truthyStr (pyStrip s) then
      match pyParseFloat s with
      | some q => Except.ok q
      | none => Except.error "ValueError: could not convert string to float"
    else Except.ok cur
  | none => Except.ok cur

/-- A non-blank int-typed override stores `int(value)`; a parse failure
raises out of `load_config`. -/
def ovrInt (v : Option String) (cur : Int) : Except String Int :=
  match v with
  | some s =>
    if truthyStr (pyStrip s) then
      match pyParseInt s with
      | some n => Except.ok n
      | none => Except.error "ValueError: invalid literal for int"
    else Except.ok cur
  | none => Except.ok cur

/-- The fully-resolved configuration (fields the claims touch, flattened
from the nested dict). -/
structure Config where
  overseerr_api_url : String
  overseerr_api_key : String
  riven_api_url : String
  riven_api_key : String
  tmdb_api_key : String
  filters : FilterConfig
  release_source : String
  run_time : String
  request_delay_minutes : Int
  logging_level : String
  discord_webhook_url : String
  deriving DecidableEq

/-- `DEFAULT_SETTINGS`. -/
def defaultConfig : Config :=
  { overseerr_api_url := ""
    overseerr_api_key := ""
    riven_api_url := ""
    riven_api_key := ""
    tmdb_api_key := ""
    filters :=
      { min_tmdb_rating := 0
        exclude_adult := true
        allowed_languages := []
        excluded_genres := []
        excluded_certifications := [] }
    release_source := "tmdb"
    run_time := ""
    request_delay_minutes := 0
    logging_level := "INFO"
    discord_webhook_url := "" }

/-- The `filters` section as read from `settings.json` (each key may be
absent). -/
structure FileFilters where
  min_tmdb_rating : Option Rat := none
  exclude_adult : Option Bool := none
  allowed_languages : Option (List String) := none
  excluded_genres : Option (List String) := none
  excluded_certifications : Option (List String) := none
  deriving DecidableEq

/-- `settings.json` content (each key may be absent). -/
structure FileConfig where
  overseerr_api_url : Option String := none
  overseerr_api_key : Option String := none
  riven_api_url : Option String := none
  riven_api_key : Option String := none
  tmdb_api_key : Option String := none
  filters : Option FileFilters := none
  release_source : Option String := none
  run_time : Option String := none
  request_delay_minutes : Option Int := none
  logging_level : Option String := none
  discord_webhook_url : Option String := none
  deriving DecidableEq

/-- `ConfigManager._merge_with_defaults`: sections merge key-by-key over
the defaults (`{**merged[key], **value}`), scalar keys replace them. -/
def mergeWithDefaults (f : FileConfig) : Config :=
  let d := defaultConfig
  let ff := f.filters.getD {}
  { overseerr_api_url := f.overseerr_api_url.getD d.overseerr_api_url
    overseerr_api_key := f.overseerr_api_key.getD d.overseerr_api_key
    riven_api_url := f.riven_api_url.getD d.riven_api_url
    riven_api_key := f.riven_api_key.getD d.riven_api_key
    tmdb_api_key := f.tmdb_api_key.getD d.tmdb_api_key
    filters :=
      { min_tmdb_rating := ff.min_tmdb_rating.getD d.filters.min_tmdb_rating
        exclude_adult := ff.exclude_adult.getD d.filters.exclude_adult
        allowed_languages := ff.allowed_languages.getD d.filters.allowed_languages
        excluded_genres := ff.excluded_genres.getD d.filters.excluded_genres
        excluded_certifications :=
          ff.excluded_certifications.getD d.filters.excluded_certifications }
    release_source := f.release_source.getD d.release_source
    run_time := f.run_time.getD d.run_time
    request_delay_minutes := f.request_delay_minutes.getD d.request_delay_minutes
    logging_level := f.logging_level.getD d.logging_level
    discord_webhook_url := f.discord_webhook_url.getD d.discord_webhook_url }

/-- The override environment variables (`none` = unset). -/
structure Env where
  overseerrApiKey : Option String := none
  overseerrApiUrl : Option String := none
  rivenApiKey : Option String := none
  rivenApiUrl : Option String := none
  tmdbApiKey : Option String := none
  discordWebhookUrl : Option String := none
  filtersMinRating : Option String := none
  filtersExcludeAdult : Option String := none
  filtersAllowedLanguages : Option String := none
  filtersExcludedGenres : Option String := none
  filtersExcludedCerts : Option String := none
  loggingLevel : Option String := none
  releaseSource : Option String := none
  runTime : Option String := none
  requestDelayMinutes : Option String := none
  deriving DecidableEq

/-- `ConfigManager._apply_env_overrides`: each supported variable, when
set to a non-blank value, replaces its configuration entry after
conversion to the mapped type; the two numeric conversions can raise. -/
def applyEnvOverrides (e : Env) (c : Config) : Except String Config :=
  match ovrFloat e.filtersMinRating c.filters.min_tmdb_rating with
  | Except.error m => Except.error m
  | Except.ok rating =>
    match ovrInt e.requestDelayMinutes c.request_delay_minutes with
    | Except.error m => Except.error m
    | Except.ok delay =>
      Except.ok
        { overseerr_api_url := ovrStr e.overseerrApiUrl c.overseerr_api_url
          overseerr_api_key := ovrStr e.overseerrApiKey c.overseerr_api_key
          riven_api_url := ovrStr e.rivenApiUrl c.riven_api_url
          riven_api_key := ovrStr e.rivenApiKey c.riven_api_key
          tmdb_api_key := ovrStr e.tmdbApiKey c.tmdb_api_key
          filters :=
            { min_tmdb_rating := rating
              exclude_adult := ovrBool e.filtersExcludeAdult c.filters.exclude_adult
              allowed_languages :=
                ovrList e.filtersAllowedLanguages c.filters.allowed_languages
              excluded_genres :=
                ovrList e.filtersExcludedGenres c.filters.excluded_genres
              excluded_certifications :=
                ovrList e.filtersExcludedCerts c.filters.excluded_certifications }
          release_source := ovrStr e.releaseSource c.release_source
          run_time := ovrStr e.runTime c.run_time
          request_delay_minutes := delay
          logging_level := ovrStr e.loggingLevel c.logging_level
          discord_webhook_url := ovrStr e.discordWebhookUrl c.discord_webhook_url }

/-- `ConfigManager._validate_config`: URL-scheme checks for each
configured requester, then the `min_tmdb_rating` range check; the
missing-requester case only logs a warning. -/
def validateConfig (c : Config) : Except String Unit :=
  if truthyStr c.overseerr_api_key
      && (truthyStr c.overseerr_api_url
          && !(leadsWith "http://" c.overseerr_api_url
               || leadsWith "https://" c.overseerr_api_url)) then
    Except.error "Overseerr API URL must start with http:// or https://"
  else if truthyStr c.riven_api_key
      && (truthyStr c.riven_api_url
          && !(leadsWith "http://" c.riven_api_url
               || leadsWith "https://" c.riven_api_url)) then
    Except.error "Riven API URL must start with http:// or https://"
  else if c.filters.min_tmdb_rating < 0 ∨ c.filters.min_tmdb_rating > 10 then
    Except.error "min_tmdb_rating must be between 0 and 10"
  else Except.ok ()

/-- `ConfigManager.load_config`: read the file (or fall back to the
defaults when it does not exist), merge with the defaults, apply the
environment overrides, validate, and return the configuration; every
raised error surfaces as `Except.error`. -/
def loadConfig (fileExists : Bool) (f : FileConfig) (e : Env) : Except String Config :=
  let base := if fileExists then mergeWithDefaults f else defaultConfig
  match applyEnvOverrides e base with
  | Except.error m => Except.error m
  | Except.ok c =>
    match validateConfig c with
    | Except.error m => Except.error m
    | Except.ok _ => Except.ok c

deriving instance DecidableEq for Except

/-! ## Helper lemmas about the outcome table -/

/-- The entry at `k` has its `overseerr` flag set. -/
def ovTrueAt (t : Table) (k : String) : Prop :=
  ∃ fl, tableGet t k = some fl ∧ fl.overseerr = true

/-- The entry at `k` has its `riven` flag set. -/
def rivTrueAt (t : Table) (k : String) : Prop :=
  ∃ fl, tableGet t k = some fl ∧ fl.riven = true

/-- No entry of the table has its `riven` flag set. -/
def rivAllFalse (t : Table) : Prop :=
  ∀ k fl, tableGet t k = some fl → fl.riven = false

theorem tableGet_append (t l : Table) (k : String) :
    tableGet (t ++ l) k = (tableGet t k).or (tableGet l k) := by
  induction t with
  | nil => simp [tableGet]
  | cons p t ih =>
    obtain ⟨k', fl⟩ := p
    by_cases h : k' = k <;> simp [tableGet, h, ih]

theorem hasKey_eq_isSome (t : Table) (k : String) :
    hasKey t k = (tableGet t k).isSome := by
  induction t with
  | nil => simp [hasKey, tableGet]
  | cons p t ih =>
    obtain ⟨k', fl⟩ := p
    by_cases h : k' = k <;> simp [hasKey, tableGet, h, ih]

theorem tableGet_setOv (t : Table) (k' k : String) :
    tableGet (setOv t k') k =
      (tableGet t k).map (fun fl => if k' = k then { fl with overseerr := true } else fl) := by
  induction t with
  | nil => simp [setOv, tableGet]
  | cons p t ih =>
    obtain ⟨k0, fl0⟩ := p
    by_cases h0 : k0 = k'
    · subst h0
      by_cases h : k0 = k
      · subst h; simp [setOv, tableGet]
      · simp [setOv, tableGet, h, ih]
    · by_cases h : k0 = k
      · subst h
        simp [setOv, tableGet, h0, Ne.symm h0]
      · simp [setOv, tableGet, h0, h, ih]

theorem tableGet_setRiv (t : Table) (k' k : String) :
    tableGet (setRiv t k') k =
      (tableGet t k).map (fun fl => if k' = k then { fl with riven := true } else fl) := by
  induction t with
  | nil => simp [setRiv, tableGet]
  | cons p t ih =>
    obtain ⟨k0, fl0⟩ := p
    by_cases h0 : k0 = k'
    · subst h0
      by_cases h : k0 = k
      · subst h; simp [setRiv, tableGet]
      · simp [setRiv, tableGet, h, ih]
    · by_cases h : k0 = k
      · subst h
        simp [setRiv, tableGet, h0, Ne.symm h0]
      · simp [setRiv, tableGet, h0, h, ih]

theorem tableGet_ensureKey_of_some (t : Table) (k' k : String) (fl : Flags)
    (h : tableGet t k = some fl) : tableGet (ensureKey t k') k = some fl := by
  unfold ensureKey
  split
  · exact h
  · rw [tableGet_append, h]; rfl

theorem tableGet_ensureKey_self_isSome (t : Table) (k : String) :
    (tableGet (ensureKey t k) k).isSome = true := by
  unfold ensureKey
  split
  · rename_i h
    rw [hasKey_eq_isSome] at h
    exact h
  · rename_i h
    rw [hasKey_eq_isSome] at h
    rw [tableGet_append]
    cases hg : tableGet t k with
    | some fl => simp
    | none => simp [tableGet]

theorem tableGet_ensureKey_cases (t : Table) (k' k : String) (fl : Flags)
    (h : tableGet (ensureKey t k') k = some fl) :
    tableGet t k = some fl ∨ fl = ⟨false, false⟩ := by
  unfold ensureKey at h
  split at h
  · exact Or.inl h
  · rw [tableGet_append] at h
    cases hg : tableGet t k with
    | some fl' =>
      rw [hg] at h
      simp [Option.or] at h
      subst h
      exact Or.inl rfl
    | none =>
      rw [hg] at h
      simp [Option.or] at h
      by_cases hk : k' = k
      · subst hk; simp [tableGet] at h; exact Or.inr h.symm
      · simp [tableGet, hk] at h

theorem ovTrueAt_ensureKey (t : Table) (k' k : String) :
    ovTrueAt (ensureKey t k') k ↔ ovTrueAt t k := by
  constructor
  · rintro ⟨fl, hget, hov⟩
    rcases tableGet_ensureKey_cases t k' k fl hget with h | h
    · exact ⟨fl, h, hov⟩
    · subst h; simp at hov
  · rintro ⟨fl, hget, hov⟩
    exact ⟨fl, tableGet_ensureKey_of_some t k' k fl hget, hov⟩

theorem ovTrueAt_setRiv (t : Table) (k' k : String) :
    ovTrueAt (setRiv t k') k ↔ ovTrueAt t k := by
  unfold ovTrueAt
  rw [tableGet_setRiv]
  cases hg : tableGet t k with
  | none => simp
  | some fl =>
    by_cases hk : k' = k <;> simp [hk]

theorem ovTrueAt_setOv_of (t : Table) (k' k : String) (h : ovTrueAt t k) :
    ovTrueAt (setOv t k') k := by
  obtain ⟨fl, hget, hov⟩ := h
  unfold ovTrueAt
  rw [tableGet_setOv, hget]
  by_cases hk : k' = k <;> simp [hk, hov]

theorem rivTrueAt_ensureKey (t : Table) (k' k : String) (h : rivTrueAt t k) :
    rivTrueAt (ensureKey t k') k := by
  obtain ⟨fl, hget, hr⟩ := h
  exact ⟨fl, tableGet_ensureKey_of_some t k' k fl hget, hr⟩

theorem rivTrueAt_setRiv_of (t : Table) (k' k : String) (h : rivTrueAt t k) :
    rivTrueAt (setRiv t k') k := by
  obtain ⟨fl, hget, hr⟩ := h
  unfold rivTrueAt
  rw [tableGet_setRiv, hget]
  by_cases hk : k' = k <;> simp [hk, hr]

theorem rivTrueAt_setRiv_self (t : Table) (k : String)
    (h : (tableGet t k).isSome = true) : rivTrueAt (setRiv t k) k := by
  unfold rivTrueAt
  rw [tableGet_setRiv]
  cases hg : tableGet t k with
  | none => rw [hg] at h; simp at h
  | some fl => simp

/-! ## Lemmas about the Riven marking loop -/

theorem markRivAll_nil (t : Table) : markRivAll t [] = t := rfl

theorem markRivAll_cons (t : Table) (k : String) (ks : List String) :
    markRivAll t (k :: ks) = markRivAll (setRiv (ensureKey t k) k) ks := rfl

theorem rivTrueAt_markRivAll_of (t : Table) (ks : List String) (k : String)
    (h : rivTrueAt t k) : rivTrueAt (markRivAll t ks) k := by
  induction ks generalizing t with
  | nil => exact h
  | cons k' ks ih =>
    rw [markRivAll_cons]
    exact ih _ (rivTrueAt_setRiv_of _ k' k (rivTrueAt_ensureKey _ k' k h))

theorem rivTrueAt_markRivAll_mem (t : Table) (ks : List String) (k : String)
    (h : k ∈ ks) : rivTrueAt (markRivAll t ks) k := by
  induction ks generalizing t with
  | nil => cases h
  | cons k' ks ih =>
    rw [markRivAll_cons]
    rcases List.mem_cons.mp h with h | h
    · subst h
      exact rivTrueAt_markRivAll_of _ ks k
        (rivTrueAt_setRiv_self _ k (tableGet_ensureKey_self_isSome t k))
    · exact ih _ h

theorem ovTrueAt_markRivAll (t : Table) (ks : List String) (k : String) :
    ovTrueAt (markRivAll t ks) k ↔ ovTrueAt t k := by
  induction ks generalizing t with
  | nil => exact Iff.rfl
  | cons k' ks ih =>
    rw [markRivAll_cons, ih, ovTrueAt_setRiv, ovTrueAt_ensureKey]

theorem length_setRiv (t : Table) (k : String) : (setRiv t k).length = t.length := by
  induction t with
  | nil => rfl
  | cons p t ih =>
    obtain ⟨k0, fl0⟩ := p
    by_cases h : k0 = k <;> simp [setRiv, h, ih]

theorem length_ensureKey_ge (t : Table) (k : String) :
    t.length ≤ (ensureKey t k).length := by
  unfold ensureKey
  split
  · exact Nat.le_refl _
  · simp

theorem length_markRivAll_ge (t : Table) (ks : List String) :
    t.length ≤ (markRivAll t ks).length := by
  induction ks generalizing t with
  | nil => exact Nat.le_refl _
  | cons k ks ih =>
    rw [markRivAll_cons]
    calc t.length ≤ (ensureKey t k).length := length_ensureKey_ge t k
    _ = (setRiv (ensureKey t k) k).length := (length_setRiv _ k).symm
    _ ≤ _ := ih _

/-! ## Lemmas about the Overseerr loop -/

theorem ovLoop_nil (resp : Release → OResp) (a : OvAcc) : ovLoop resp [] a = a := rfl

theorem ovLoop_cons (resp : Release → OResp) (r : Release) (rs : List Release) (a : OvAcc) :
    ovLoop resp (r :: rs) a = ovLoop resp rs (ovStep resp a r) := rfl

theorem ovStep_att (resp : Release → OResp) (a : OvAcc) (r : Release) :
    (ovStep resp a r).att = a.att + 1 := by
  unfold ovStep
  cases resp r <;> rfl

theorem ovLoop_att (resp : Release → OResp) (rs : List Release) (a : OvAcc) :
    (ovLoop resp rs a).att = a.att + rs.length := by
  induction rs generalizing a with
  | nil => rfl
  | cons r rs ih =>
    rw [ovLoop_cons, ih, ovStep_att, List.length_cons]
    omega

theorem ovLoop_succ (resp : Release → OResp) (rs : List Release) (a : OvAcc) :
    (ovLoop resp rs a).succ = a.succ + rs.countP (fun r => resp r == OResp.ok) := by
  induction rs generalizing a with
  | nil => simp [ovLoop_nil]
  | cons r rs ih =>
    rw [ovLoop_cons, ih, List.countP_cons]
    cases h : resp r <;> (simp [ovStep, h]; try omega)

theorem ovLoop_fail (resp : Release → OResp) (rs : List Release) (a : OvAcc) :
    (ovLoop resp rs a).fail = a.fail + rs.countP (fun r => !(resp r == OResp.ok)) := by
  induction rs generalizing a with
  | nil => simp [ovLoop_nil]
  | cons r rs ih =>
    rw [ovLoop_cons, ih, List.countP_cons]
    cases h : resp r <;> simp [ovStep, h] <;> omega

theorem ovStep_table (resp : Release → OResp) (a : OvAcc) (r : Release) :
    (ovStep resp a r).table =
      if resp r = OResp.ok then setOv (ensureKey a.table (pyKey r)) (pyKey r)
      else ensureKey a.table (pyKey r) := by
  unfold ovStep
  cases resp r <;> simp

theorem ovTrueAt_ovStep_of (resp : Release → OResp) (a : OvAcc) (r : Release) (k : String)
    (h : ovTrueAt a.table k) : ovTrueAt (ovStep resp a r).table k := by
  rw [ovStep_table]
  split
  · exact ovTrueAt_setOv_of _ _ k ((ovTrueAt_ensureKey _ _ k).mpr h)
  · exact (ovTrueAt_ensureKey _ _ k).mpr h

theorem ovTrueAt_ovLoop_of (resp : Release → OResp) (rs : List Release) (a : OvAcc)
    (k : String) (h : ovTrueAt a.table k) : ovTrueAt (ovLoop resp rs a).table k := by
  induction rs generalizing a with
  | nil => exact h
  | cons r rs ih =>
    rw [ovLoop_cons]
    exact ih _ (ovTrueAt_ovStep_of resp a r k h)

theorem ovTrueAt_setOv_self (t : Table) (k : String)
    (h : (tableGet t k).isSome = true) : ovTrueAt (setOv t k) k := by
  unfold ovTrueAt
  rw [tableGet_setOv]
  cases hg : tableGet t k with
  | none => rw [hg] at h; simp at h
  | some fl => simp

theorem ovTrueAt_ovLoop_mem (resp : Release → OResp) (rs : List Release) (a : OvAcc)
    (r : Release) (hmem : r ∈ rs) (hok : resp r = OResp.ok) :
    ovTrueAt (ovLoop resp rs a).table (pyKey r) := by
  induction rs generalizing a with
  | nil => cases hmem
  | cons r0 rs ih =>
    rw [ovLoop_cons]
    rcases List.mem_cons.mp hmem with h | h
    · subst h
      apply ovTrueAt_ovLoop_of
      rw [ovStep_table, if_pos hok]
      exact ovTrueAt_setOv_self _ _ (tableGet_ensureKey_self_isSome a.table (pyKey r))
    · exact ih _ h

theorem ovTrueAt_setOv_cases (t : Table) (k' k : String)
    (h : ovTrueAt (setOv t k') k) : ovTrueAt t k ∨ k' = k := by
  by_cases hk : k' = k
  · exact Or.inr hk
  · obtain ⟨fl, hget, hov⟩ := h
    rw [tableGet_setOv] at hget
    cases hg : tableGet t k with
    | none => rw [hg] at hget; simp at hget
    | some fl0 =>
      rw [hg] at hget
      simp [hk] at hget
      subst hget
      exact Or.inl ⟨fl0, hg, hov⟩

theorem ovTrueAt_ovStep_cases (resp : Release → OResp) (a : OvAcc) (r : Release) (k : String)
    (h : ovTrueAt (ovStep resp a r).table k) :
    ovTrueAt a.table k ∨ (pyKey r = k ∧ resp r = OResp.ok) := by
  rw [ovStep_table] at h
  split at h
  · rcases ovTrueAt_setOv_cases _ _ k h with h' | h'
    · exact Or.inl ((ovTrueAt_ensureKey _ _ k).mp h')
    · rename_i hok
      exact Or.inr ⟨h', hok⟩
  · exact Or.inl ((ovTrueAt_ensureKey _ _ k).mp h)

theorem ovTrueAt_ovLoop_cases (resp : Release → OResp) (rs : List Release) (a : OvAcc)
    (k : String) (h : ovTrueAt (ovLoop resp rs a).table k) :
    ovTrueAt a.table k ∨ ∃ r ∈ rs, pyKey r = k ∧ resp r = OResp.ok := by
  induction rs generalizing a with
  | nil => exact Or.inl h
  | cons r0 rs ih =>
    rw [ovLoop_cons] at h
    rcases ih _ h with h' | ⟨r, hr, hk, hok⟩
    · rcases ovTrueAt_ovStep_cases resp a r0 k h' with h'' | h''
      · exact Or.inl h''
      · exact Or.inr ⟨r0, List.mem_cons_self r0 rs, h''⟩
    · exact Or.inr ⟨r, List.mem_cons_of_mem r0 hr, hk, hok⟩

theorem rivAllFalse_ensureKey (t : Table) (k : String) (h : rivAllFalse t) :
    rivAllFalse (ensureKey t k) := by
  intro k0 fl hget
  rcases tableGet_ensureKey_cases t k k0 fl hget with h' | h'
  · exact h k0 fl h'
  · subst h'; rfl

theorem rivAllFalse_setOv (t : Table) (k : String) (h : rivAllFalse t) :
    rivAllFalse (setOv t k) := by
  intro k0 fl hget
  rw [tableGet_setOv] at hget
  cases hg : tableGet t k0 with
  | none => rw [hg] at hget; simp at hget
  | some fl0 =>
    rw [hg] at hget
    by_cases hk : k = k0
    · simp [hk] at hget
      subst hget
      exact h k0 fl0 hg
    · simp [hk] at hget
      subst hget
      exact h k0 fl0 hg

theorem rivAllFalse_ovStep (resp : Release → OResp) (a : OvAcc) (r : Release)
    (h : rivAllFalse a.table) : rivAllFalse (ovStep resp a r).table := by
  rw [ovStep_table]
  split
  · exact rivAllFalse_setOv _ _ (rivAllFalse_ensureKey _ _ h)
  · exact rivAllFalse_ensureKey _ _ h

theorem rivAllFalse_ovLoop (resp : Release → OResp) (rs : List Release) (a : OvAcc)
    (h : rivAllFalse a.table) : rivAllFalse (ovLoop resp rs a).table := by
  induction rs generalizing a with
  | nil => exact h
  | cons r rs ih =>
    rw [ovLoop_cons]
    exact ih _ (rivAllFalse_ovStep resp a r h)

theorem tableGet_isSome_ovStep (resp : Release → OResp) (a : OvAcc) (r : Release)
    (k : String) (h : (tableGet a.table k).isSome = true) :
    (tableGet (ovStep resp a r).table k).isSome = true := by
  obtain ⟨fl, hget⟩ := Option.isSome_iff_exists.mp h
  rw [ovStep_table]
  split
  · rw [tableGet_setOv, tableGet_ensureKey_of_some _ _ k fl hget]
    rfl
  · rw [tableGet_ensureKey_of_some _ _ k fl hget]
    rfl

theorem tableGet_isSome_ovLoop (resp : Release → OResp) (rs : List Release) (a : OvAcc)
    (k : String) (h : (tableGet a.table k).isSome = true) :
    (tableGet (ovLoop resp rs a).table k).isSome = true := by
  induction rs generalizing a with
  | nil => exact h
  | cons r rs ih =>
    rw [ovLoop_cons]
    exact ih _ (tableGet_isSome_ovStep resp a r k h)

theorem tableGet_isSome_ovLoop_mem (resp : Release → OResp) (rs : List Release) (a : OvAcc)
    (r : Release) (hmem : r ∈ rs) :
    (tableGet (ovLoop resp rs a).table (pyKey r)).isSome = true := by
  induction rs generalizing a with
  | nil => cases hmem
  | cons r0 rs ih =>
    rw [ovLoop_cons]
    rcases List.mem_cons.mp hmem with h | h
    · subst h
      apply tableGet_isSome_ovLoop
      rw [ovStep_table]
      split
      · rw [tableGet_setOv]
        cases hg : tableGet (ensureKey a.table (pyKey r)) (pyKey r) with
        | none =>
          have := tableGet_ensureKey_self_isSome a.table (pyKey r)
          rw [hg] at this; simp at this
        | some fl => rfl
      · exact tableGet_ensureKey_self_isSome a.table (pyKey r)
    · exact ih _ h

theorem table_ne_nil_of_isSome (t : Table) (k : String)
    (h : (tableGet t k).isSome = true) : t ≠ [] := by
  intro hnil
  subst hnil
  simp [tableGet] at h

/-! ## Lemmas about the phases of `run_check` -/

theorem runCheck_table_def (ovP : Bool) (rcfg : Option RivenConfig) (env : RivenEnv)
    (dE : Bool) (resp : Release → OResp) (fcfg : FilterConfig) (releases : List Release) :
    (runCheck ovP rcfg env dE resp fcfg releases).table =
      (rivenPhase rcfg env (applyFilters fcfg releases)
        (ovPhase ovP resp (applyFilters fcfg releases)).table).table := rfl

theorem runCheck_ovSucc_def (ovP : Bool) (rcfg : Option RivenConfig) (env : RivenEnv)
    (dE : Bool) (resp : Release → OResp) (fcfg : FilterConfig) (releases : List Release) :
    (runCheck ovP rcfg env dE resp fcfg releases).ovSucc =
      (ovPhase ovP resp (applyFilters fcfg releases)).succ := rfl

theorem runCheck_ovFail_def (ovP : Bool) (rcfg : Option RivenConfig) (env : RivenEnv)
    (dE : Bool) (resp : Release → OResp) (fcfg : FilterConfig) (releases : List Release) :
    (runCheck ovP rcfg env dE resp fcfg releases).ovFail =
      (ovPhase ovP resp (applyFilters fcfg releases)).fail := rfl

theorem runCheck_ovAttempts_def (ovP : Bool) (rcfg : Option RivenConfig) (env : RivenEnv)
    (dE : Bool) (resp : Release → OResp) (fcfg : FilterConfig) (releases : List Release) :
    (runCheck ovP rcfg env dE resp fcfg releases).ovAttempts =
      (ovPhase ovP resp (applyFilters fcfg releases)).att := rfl

theorem runCheck_rivenCalled_def (ovP : Bool) (rcfg : Option RivenConfig) (env : RivenEnv)
    (dE : Bool) (resp : Release → OResp) (fcfg : FilterConfig) (releases : List Release) :
    (runCheck ovP rcfg env dE resp fcfg releases).rivenCalled =
      (rivenPhase rcfg env (applyFilters fcfg releases)
        (ovPhase ovP resp (applyFilters fcfg releases)).table).called := rfl

theorem runCheck_notified_def (ovP : Bool) (rcfg : Option RivenConfig) (env : RivenEnv)
    (dE : Bool) (resp : Release → OResp) (fcfg : FilterConfig) (releases : List Release) :
    (runCheck ovP rcfg env dE resp fcfg releases).notified =
      (dE && !(rivenPhase rcfg env (applyFilters fcfg releases)
        (ovPhase ovP resp (applyFilters fcfg releases)).table).table.isEmpty) := rfl

theorem isEmpty_false_of_ne_nil {α : Type} (l : List α) (h : l ≠ []) :
    l.isEmpty = false := by
  cases l with
  | nil => exact absurd rfl h
  | cons a l => rfl

theorem ovPhase_of_present (resp : Release → OResp) (filtered : List Release)
    (hne : filtered ≠ []) :
    ovPhase true resp filtered = ovLoop resp filtered ⟨[], 0, 0, 0⟩ := by
  unfold ovPhase
  rw [isEmpty_false_of_ne_nil filtered hne]
  rfl

theorem rivenPhase_table_pos (rc : RivenConfig) (env : RivenEnv)
    (filtered : List Release) (t : Table) (hne : filtered ≠ [])
    (hpos : 0 < (addMedia rc env filtered).1.success) :
    (rivenPhase (some rc) env filtered t).table = markRivAll t (filtered.map pyKey) := by
  unfold rivenPhase
  rw [isEmpty_false_of_ne_nil filtered hne]
  simp only [Bool.not_false, if_true, if_pos hpos]

theorem rivenPhase_table_zero (rc : RivenConfig) (env : RivenEnv)
    (filtered : List Release) (t : Table)
    (hz : (addMedia rc env filtered).1.success = 0) :
    (rivenPhase (some rc) env filtered t).table = t := by
  unfold rivenPhase
  cases hie : filtered.isEmpty with
  | true => simp [hie]
  | false => simp [hie, hz]

theorem ovTrueAt_rivenPhase (rcfg : Option RivenConfig) (env : RivenEnv)
    (filtered : List Release) (t : Table) (k : String) :
    ovTrueAt (rivenPhase rcfg env filtered t).table k ↔ ovTrueAt t k := by
  cases rcfg with
  | none => exact Iff.rfl
  | some rc =>
    unfold rivenPhase
    cases hie : filtered.isEmpty with
    | true => simp [hie]
    | false =>
      simp only [hie, Bool.not_false, if_true]
      split
      · exact ovTrueAt_markRivAll t (filtered.map pyKey) k
      · exact Iff.rfl

theorem rivenPhase_called_eq (rcfg : Option RivenConfig) (env : RivenEnv)
    (filtered : List Release) (t : Table) :
    (rivenPhase rcfg env filtered t).called = (rcfg.isSome && !filtered.isEmpty) := by
  cases rcfg with
  | none => simp [rivenPhase]
  | some rc =>
    unfold rivenPhase
    cases hie : filtered.isEmpty with
    | true => simp [hie]
    | false => simp [hie]

theorem rivenPhase_table_ne_nil (rcfg : Option RivenConfig) (env : RivenEnv)
    (filtered : List Release) (t : Table) (h : t ≠ []) :
    (rivenPhase rcfg env filtered t).table ≠ [] := by
  cases rcfg with
  | none => exact h
  | some rc =>
    unfold rivenPhase
    cases hie : filtered.isEmpty with
    | true => simpa [hie] using h
    | false =>
      simp only [hie, Bool.not_false, if_true]
      split
      · have h1 : 0 < t.length := List.length_pos.mpr h
        have h2 := length_markRivAll_ge t (filtered.map pyKey)
        exact List.length_pos.mp (Nat.lt_of_lt_of_le h1 h2)
      · exact h

theorem rivAllFalse_ovPhase (ovP : Bool) (resp : Release → OResp)
    (filtered : List Release) : rivAllFalse (ovPhase ovP resp filtered).table := by
  unfold ovPhase
  split
  · apply rivAllFalse_ovLoop
    intro k fl h
    simp [tableGet] at h
  · intro k fl h
    simp [tableGet] at h

/-! ## Claims -/

/-- C8: for every filter configuration and input sequence, `apply_filters`
returns a subsequence of its input — every output element is an element of
the input and the relative order of retained elements is preserved. -/
theorem applyFilters_sublist (cfg : FilterConfig) (rs : List Release) :
    (applyFilters cfg rs).Sublist rs ∧ ∀ r ∈ applyFilters cfg rs, r ∈ rs :=
  ⟨List.filter_sublist rs, fun _ h => List.mem_of_mem_filter h⟩

/-- C9: when the configured Riven API key or API URL is empty, `add_media`
returns `{success: 0, failed: 0, results: []}` and issues no network call
at all (empty call trace), for every release list and every environment. -/
theorem addMedia_disabled (c : RivenConfig) (env : RivenEnv) (releases : List Release)
    (h : c.api_key = "" ∨ c.api_url = "") :
    addMedia c env releases = ({ success := 0, failed := 0, results := [] }, []) := by
  unfold addMedia isEnabled truthyStr
  rcases h with h | h <;> simp [h]

/-- Witness for C9 at a concrete input: empty API key, one release. -/
theorem addMedia_disabled_witness :
    addMedia ⟨"http://localhost:8083", ""⟩ {} [dvdSourceRelease 1 "A"]
      = ({ success := 0, failed := 0, results := [] }, []) :=
  addMedia_disabled ⟨"http://localhost:8083", ""⟩ {} [dvdSourceRelease 1 "A"] (Or.inl rfl)

/-- C1 (failing input): a release record exactly as
`DVDReleaseChecker._lookup_on_tmdb` produces it carries
`media_type = "movie"` and an `id`, but no `type` and no `tmdb_id` key;
`add_media`'s selector `r.get("type") == "movie"` therefore drops it, so
with the Riven sink configured and a non-empty filtered set no batch add
call is issued at all (empty trace, success 0) — contradicting the claim
(and the code's own `# All releases are movies` comment) that one batch
add covers every release of the set. -/
theorem addMedia_drops_dvd_source_release :
    (dvdSourceRelease 603 "The Matrix").media_type = some "movie"
    ∧ (dvdSourceRelease 603 "The Matrix").id = some 603
    ∧ addMedia ⟨"http://localhost:8083", "key"⟩ {} [dvdSourceRelease 603 "The Matrix"]
        = ({ success := 0, failed := 0, results := [] }, []) := by
  refine ⟨rfl, rfl, ?_⟩
  decide

/-- C4 (counterexample): with run time 19:00 and a cycle starting
2025-01-31 23:00:00 — a cycle whose check body raises nothing — the
next-run computation executes `replace(day=32)`, the raised `ValueError`
escapes the `while` loop, and the process exits with code 1; the loop does
not continue to the next scheduled run. -/
theorem scheduledLoop_month_end_exits :
    scheduledLoop 19 0 [⟨⟨2025, 1, 31, 23, 0, 0⟩, false⟩] = some 1 := by
  decide

/-- C4 (amended): exceptions raised by the check body of a scheduled cycle
(`run_check` or the pre-check delay) are caught and the loop continues,
for any sequence of cycles — but only as long as every cycle's next-run
computation itself succeeds; a failing next-run computation instead exits
the process with code 1 (see the counterexample). -/
theorem scheduledLoop_continues_when_nextRun_ok (rh rm : Nat) (cycles : List Cycle)
    (h : ∀ c ∈ cycles, (nextRunCalc rh rm c.now).isSome = true) :
    scheduledLoop rh rm cycles = none := by
  induction cycles with
  | nil => rfl
  | cons c rest ih =>
    have hc := h c (List.mem_cons_self c rest)
    simp only [scheduledLoop]
    cases hnr : nextRunCalc rh rm c.now with
    | none => rw [hnr] at hc; simp at hc
    | some d => exact ih fun c' hc' => h c' (List.mem_cons_of_mem c hc')

/-- Witness for C4's amended claim: two cycles whose check bodies both
raise; the loop swallows both and keeps running. -/
theorem scheduledLoop_continues_witness :
    scheduledLoop 19 0 [⟨⟨2025, 1, 30, 23, 0, 0⟩, true⟩, ⟨⟨2025, 2, 1, 10, 0, 0⟩, true⟩]
      = none :=
  scheduledLoop_continues_when_nextRun_ok 19 0
    [⟨⟨2025, 1, 30, 23, 0, 0⟩, true⟩, ⟨⟨2025, 2, 1, 10, 0, 0⟩, true⟩] (by decide)

/-- C5: for a non-empty release list in which every release carries a
truthy TMDB id, the add call lands in exactly one of the four outcome
classes — 200 gives success = number of submitted ids and failed = 0;
404, 422, any other status, and a network exception each give success = 0
and failed = the count of ids, with a distinct result detail entry per
class. -/
theorem addItems_outcome_classes (env : RivenEnv) (mt : String) (releases : List Release)
    (hne : releases ≠ [])
    (hids : ∀ r ∈ releases, truthyNat r.tmdb_id = true) :
    (tmdbIds releases).length = releases.length
    ∧ (env.addStatus = some 200 →
        (addItemsCall env mt releases).1 =
          ⟨releases.length, 0, [ResultDetail.success (tmdbIds releases)]⟩)
    ∧ (env.addStatus = some 404 →
        (addItemsCall env mt releases).1 =
          ⟨0, releases.length, [ResultDetail.error (some 404) (some "Not found")]⟩)
    ∧ (env.addStatus = some 422 →
        (addItemsCall env mt releases).1 =
          ⟨0, releases.length, [ResultDetail.error (some 422) (some "Validation error")]⟩)
    ∧ (∀ s, env.addStatus = some s → s ≠ 200 → s ≠ 404 → s ≠ 422 →
        (addItemsCall env mt releases).1 =
          ⟨0, releases.length, [ResultDetail.error (some s) none]⟩)
    ∧ (env.addStatus = none →
        (addItemsCall env mt releases).1 =
          ⟨0, releases.length, [ResultDetail.error none (some env.addErrMsg)]⟩) := by
  have hfil : releases.filter (fun r => truthyNat r.tmdb_id) = releases :=
    List.filter_eq_self.mpr hids
  have hlen : (tmdbIds releases).length = releases.length := by
    unfold tmdbIds; rw [hfil, List.length_map]
  have hempty : (tmdbIds releases).isEmpty = false := by
    unfold tmdbIds
    rw [hfil]
    cases releases with
    | nil => exact absurd rfl hne
    | cons r rs => rfl
  refine ⟨hlen, ?_, ?_, ?_, ?_, ?_⟩
  · intro h
    simp only [addItemsCall, hempty, h, Bool.false_eq_true, if_false, hlen]
    norm_num
  · intro h
    simp only [addItemsCall, hempty, h, Bool.false_eq_true, if_false, hlen]
    norm_num
  · intro h
    simp only [addItemsCall, hempty, h, Bool.false_eq_true, if_false, hlen]
    norm_num
  · intro s h h200 h404 h422
    simp only [addItemsCall, hempty, h, Bool.false_eq_true, if_false, hlen]
    rw [if_neg h200, if_neg h404, if_neg h422]
  · intro h
    simp only [addItemsCall, hempty, h, Bool.false_eq_true, if_false]

/-- Witness for C5 at a concrete input: one release with id 3, a 404
response. -/
theorem addItems_outcome_classes_witness :
    (addItemsCall { addStatus := some 404 } "movie" [{ tmdb_id := some 3 }]).1 =
      ⟨0, 1, [ResultDetail.error (some 404) (some "Not found")]⟩ :=
  (addItems_outcome_classes { addStatus := some 404 } "movie" [{ tmdb_id := some 3 }]
    (by simp) (by decide)).2.2.1 rfl

/-- Is this call the bulk remove? -/
def isRemoveCall : RivenCall → Bool
  | RivenCall.removeItems _ => true
  | _ => false

/-- The trace `_add_items` issues when there is at least one TMDB id: the
Unknown-state query, an optional single bulk remove, then the add call —
the same trace for every response environment. -/
theorem addItemsCall_trace (env : RivenEnv) (mt : String) (releases : List Release)
    (hne : (tmdbIds releases).isEmpty = false) :
    (addItemsCall env mt releases).2 =
      [RivenCall.getItems mt]
      ++ (if (itemsToRemove (tmdbIds releases) (getUnknownMap env)).isEmpty then []
          else [RivenCall.removeItems (itemsToRemove (tmdbIds releases) (getUnknownMap env))])
      ++ [RivenCall.addItems mt (tmdbIds releases)] := by
  simp only [addItemsCall, hne, Bool.false_eq_true, if_false]
  cases env.addStatus with
  | none => rfl
  | some s =>
    by_cases h200 : s = 200
    · simp [h200]
    · by_cases h404 : s = 404
      · simp [h200, h404]
      · by_cases h422 : s = 422
        · simp [h200, h404, h422]
        · simp [h200, h404, h422]

/-- C6: before every Riven batch add the sink first queries the backend's
Unknown items; every target TMDB id found in that map contributes its
backend-internal id to a single bulk remove call issued before the add
call; and the add call is issued for every response environment —
including those where the Unknown query or the remove call fails. -/
theorem addItems_reconciliation (env : RivenEnv) (mt : String) (releases : List Release)
    (hne : (tmdbIds releases).isEmpty = false) :
    ((addItemsCall env mt releases).2.head? = some (RivenCall.getItems mt))
    ∧ ((addItemsCall env mt releases).2.getLast?
        = some (RivenCall.addItems mt (tmdbIds releases)))
    ∧ (∀ tid ∈ tmdbIds releases, ∀ iid, pyDictGet (getUnknownMap env) tid = some iid →
        RivenCall.removeItems (itemsToRemove (tmdbIds releases) (getUnknownMap env))
            ∈ (addItemsCall env mt releases).2.dropLast
          ∧ iid ∈ itemsToRemove (tmdbIds releases) (getUnknownMap env))
    ∧ (addItemsCall env mt releases).2.countP isRemoveCall ≤ 1 := by
  rw [addItemsCall_trace env mt releases hne]
  refine ⟨?_, ?_, ?_, ?_⟩
  · rfl
  · rw [List.getLast?_concat]
  · intro tid htid iid hiid
    have hmem : iid ∈ itemsToRemove (tmdbIds releases) (getUnknownMap env) := by
      unfold itemsToRemove
      exact List.mem_filterMap.mpr ⟨tid, htid, hiid⟩
    have hremne : (itemsToRemove (tmdbIds releases) (getUnknownMap env)).isEmpty = false := by
      cases hrm : itemsToRemove (tmdbIds releases) (getUnknownMap env) with
      | nil => rw [hrm] at hmem; cases hmem
      | cons x xs => rfl
    refine ⟨?_, hmem⟩
    rw [List.dropLast_concat, hremne]
    simp
  · cases hrm : (itemsToRemove (tmdbIds releases) (getUnknownMap env)).isEmpty with
    | true => simp [isRemoveCall]
    | false => simp [isRemoveCall]

/-- Witness for C6 at a concrete input: one target id 3 present in the
backend's Unknown map with internal id 77. -/
theorem addItems_reconciliation_witness :
    RivenCall.removeItems ["77"]
        ∈ (addItemsCall { unknownItems := [⟨some 3, some 77⟩] } "movie"
            [{ tmdb_id := some 3 }]).2.dropLast
    ∧ "77" ∈ itemsToRemove (tmdbIds [{ tmdb_id := some 3 }])
        (getUnknownMap { unknownItems := [⟨some 3, some 77⟩] }) :=
  (addItems_reconciliation { unknownItems := [⟨some 3, some 77⟩] } "movie"
      [{ tmdb_id := some 3 }] (by decide)).2.2.1 "3" (by decide) "77" (by decide)

/-- C2: with the Riven requester present, when the batch call's aggregate
success count is positive the orchestrator marks the `riven` flag true for
every release of the filtered set (keyed by the string form of its
tmdb_id), whatever the count's value; when the count is zero, no entry of
the outcome table has its `riven` flag set. -/
theorem runCheck_riven_all_or_nothing (ovP : Bool) (rc : RivenConfig) (env : RivenEnv)
    (dE : Bool) (resp : Release → OResp) (fcfg : FilterConfig) (releases : List Release) :
    (applyFilters fcfg releases ≠ [] →
      0 < (addMedia rc env (applyFilters fcfg releases)).1.success →
      ∀ r ∈ applyFilters fcfg releases,
        rivTrueAt (runCheck ovP (some rc) env dE resp fcfg releases).table (pyKey r))
    ∧ ((addMedia rc env (applyFilters fcfg releases)).1.success = 0 →
      rivAllFalse (runCheck ovP (some rc) env dE resp fcfg releases).table) := by
  constructor
  · intro hne hpos r hr
    rw [runCheck_table_def,
      rivenPhase_table_pos rc env (applyFilters fcfg releases) _ hne hpos]
    exact rivTrueAt_markRivAll_mem _ _ _ (List.mem_map_of_mem pyKey hr)
  · intro hz
    rw [runCheck_table_def,
      rivenPhase_table_zero rc env (applyFilters fcfg releases) _ hz]
    exact rivAllFalse_ovPhase ovP resp (applyFilters fcfg releases)

/-- Witness for C2 at a concrete input: one qualifying release with
tmdb_id 3, a 200 add response; its `riven` flag ends up true. -/
theorem runCheck_riven_all_or_nothing_witness :
    rivTrueAt (runCheck true (some ⟨"http://x", "k"⟩) {} true (fun _ => OResp.ok) {}
        [{ tmdb_id := some 3, type_ := some "movie", adult := some false }]).table
      (pyKey { tmdb_id := some 3, type_ := some "movie", adult := some false }) :=
  (runCheck_riven_all_or_nothing true ⟨"http://x", "k"⟩ {} true (fun _ => OResp.ok) {}
      [{ tmdb_id := some 3, type_ := some "movie", adult := some false }]).1
    (by decide) (by decide)
    { tmdb_id := some 3, type_ := some "movie", adult := some false } (by decide)

/-- C3: with the Overseerr requester present and a non-empty filtered set,
every release is attempted exactly once (exceptions included), the success
tally counts exactly the truthy `request_media` results and the failure
tally everything else, a key's `overseerr` flag is true exactly when some
release with that key returned a truthy success, and the Riven step and
the notification step still run afterwards. -/
theorem runCheck_overseerr_isolation (rcfg : Option RivenConfig) (env : RivenEnv)
    (dE : Bool) (resp : Release → OResp) (fcfg : FilterConfig) (releases : List Release)
    (hne : applyFilters fcfg releases ≠ []) :
    (runCheck true rcfg env dE resp fcfg releases).ovAttempts
        = (applyFilters fcfg releases).length
    ∧ (runCheck true rcfg env dE resp fcfg releases).ovSucc
        = (applyFilters fcfg releases).countP (fun r => resp r == OResp.ok)
    ∧ (runCheck true rcfg env dE resp fcfg releases).ovFail
        = (applyFilters fcfg releases).countP (fun r => !(resp r == OResp.ok))
    ∧ (∀ r ∈ applyFilters fcfg releases, resp r = OResp.ok →
        ovTrueAt (runCheck true rcfg env dE resp fcfg releases).table (pyKey r))
    ∧ (∀ k, ovTrueAt (runCheck true rcfg env dE resp fcfg releases).table k →
        ∃ r ∈ applyFilters fcfg releases, pyKey r = k ∧ resp r = OResp.ok)
    ∧ (runCheck true rcfg env dE resp fcfg releases).rivenCalled = rcfg.isSome
    ∧ (runCheck true rcfg env dE resp fcfg releases).notified = dE := by
  have hop : ovPhase true resp (applyFilters fcfg releases)
      = ovLoop resp (applyFilters fcfg releases) ⟨[], 0, 0, 0⟩ :=
    ovPhase_of_present resp _ hne
  refine ⟨?_, ?_, ?_, ?_, ?_, ?_, ?_⟩
  · rw [runCheck_ovAttempts_def, hop, ovLoop_att]; simp
  · rw [runCheck_ovSucc_def, hop, ovLoop_succ]; simp
  · rw [runCheck_ovFail_def, hop, ovLoop_fail]; simp
  · intro r hr hok
    rw [runCheck_table_def]
    rw [ovTrueAt_rivenPhase, hop]
    exact ovTrueAt_ovLoop_mem resp _ _ r hr hok
  · intro k h
    rw [runCheck_table_def, ovTrueAt_rivenPhase, hop] at h
    rcases ovTrueAt_ovLoop_cases resp _ _ k h with h' | h'
    · obtain ⟨fl, hget, _⟩ := h'
      simp [tableGet] at hget
    · exact h'
  · rw [runCheck_rivenCalled_def, rivenPhase_called_eq,
      isEmpty_false_of_ne_nil _ hne]
    simp
  · rw [runCheck_notified_def]
    obtain ⟨r0, hr0⟩ := List.exists_mem_of_ne_nil _ hne
    have hkey : (tableGet (ovPhase true resp (applyFilters fcfg releases)).table
        (pyKey r0)).isSome = true := by
      rw [hop]
      exact tableGet_isSome_ovLoop_mem resp _ _ r0 hr0
    have htne : (rivenPhase rcfg env (applyFilters fcfg releases)
        (ovPhase true resp (applyFilters fcfg releases)).table).table ≠ [] :=
      rivenPhase_table_ne_nil rcfg env _ _
        (table_ne_nil_of_isSome _ _ hkey)
    rw [isEmpty_false_of_ne_nil _ htne]
    simp

/-- Witness for C3 at a concrete input: three qualifying releases where
the second submission raises; all three are attempted, exactly one
failure is tallied, and the Riven call and notification still happen. -/
theorem runCheck_overseerr_isolation_witness :
    (runCheck true (some ⟨"http://x", "k"⟩) {} true
        (fun r => if r.tmdb_id == some 2 then OResp.exn else OResp.ok) {}
        [{ tmdb_id := some 1, type_ := some "movie", adult := some false },
         { tmdb_id := some 2, type_ := some "movie", adult := some false },
         { tmdb_id := some 3, type_ := some "movie", adult := some false }]).ovAttempts = 3
    ∧ (runCheck true (some ⟨"http://x", "k"⟩) {} true
        (fun r => if r.tmdb_id == some 2 then OResp.exn else OResp.ok) {}
        [{ tmdb_id := some 1, type_ := some "movie", adult := some false },
         { tmdb_id := some 2, type_ := some "movie", adult := some false },
         { tmdb_id := some 3, type_ := some "movie", adult := some false }]).ovFail = 1
    ∧ (runCheck true (some ⟨"http://x", "k"⟩) {} true
        (fun r => if r.tmdb_id == some 2 then OResp.exn else OResp.ok) {}
        [{ tmdb_id := some 1, type_ := some "movie", adult := some false },
         { tmdb_id := some 2, type_ := some "movie", adult := some false },
         { tmdb_id := some 3, type_ := some "movie", adult := some false }]).rivenCalled = true
    ∧ (runCheck true (some ⟨"http://x", "k"⟩) {} true
        (fun r => if r.tmdb_id == some 2 then OResp.exn else OResp.ok) {}
        [{ tmdb_id := some 1, type_ := some "movie", adult := some false },
         { tmdb_id := some 2, type_ := some "movie", adult := some false },
         { tmdb_id := some 3, type_ := some "movie", adult := some false }]).notified = true := by
  have h := runCheck_overseerr_isolation (some ⟨"http://x", "k"⟩) {} true
    (fun r => if r.tmdb_id == some 2 then OResp.exn else OResp.ok) {}
    [{ tmdb_id := some 1, type_ := some "movie", adult := some false },
     { tmdb_id := some 2, type_ := some "movie", adult := some false },
     { tmdb_id := some 3, type_ := some "movie", adult := some false }] (by decide)
  refine ⟨?_, ?_, ?_, ?_⟩
  · rw [h.1]; decide
  · rw [h.2.2.1]; decide
  · rw [h.2.2.2.2.2.1]; rfl
  · rw [h.2.2.2.2.2.2]

/-- C7: every configuration `load_config` returns has its effective
`min_tmdb_rating` inside the closed interval [0, 10]; out-of-range values
are rejected with an error before the configuration is returned. -/
theorem loadConfig_rating_in_range (fe : Bool) (f : FileConfig) (e : Env) (c : Config)
    (h : loadConfig fe f e = Except.ok c) :
    0 ≤ c.filters.min_tmdb_rating ∧ c.filters.min_tmdb_rating ≤ 10 := by
  unfold loadConfig at h
  cases hae : applyEnvOverrides e (if fe then mergeWithDefaults f else defaultConfig) with
  | error m => simp only [hae] at h; exact Except.noConfusion h
  | ok c0 =>
    simp only [hae] at h
    cases hv : validateConfig c0 with
    | error m => simp only [hv] at h; exact Except.noConfusion h
    | ok u =>
      simp only [hv] at h
      injection h with h
      subst h
      unfold validateConfig at hv
      split at hv
      · exact absurd hv (by simp)
      · split at hv
        · exact absurd hv (by simp)
        · split at hv
          · exact absurd hv (by simp)
          · rename_i h3
            push_neg at h3
            exact ⟨h3.1, h3.2⟩

/-- Witness for C7 at a concrete input: the default configuration loads
successfully and its rating sits in range. -/
theorem loadConfig_rating_in_range_witness :
    0 ≤ defaultConfig.filters.min_tmdb_rating
    ∧ defaultConfig.filters.min_tmdb_rating ≤ 10 :=
  loadConfig_rating_in_range false {} {} defaultConfig (by decide)

/-! ## Lemmas about single environment overrides -/

theorem ovrStr_blank (v : Option String) (cur : String) (h : blankEnv v = true) :
    ovrStr v cur = cur := by
  cases v with
  | none => rfl
  | some s =>
    unfold blankEnv at h
    unfold ovrStr truthyStr
    simp only [h, bne]
    simp at h
    simp [h]

theorem ovrStr_set (cur : String) (s : String) (h : blankEnv (some s) = false) :
    ovrStr (some s) cur = s := by
  unfold blankEnv at h
  unfold ovrStr truthyStr
  simp at h
  simp [h]

theorem ovrBool_blank (v : Option String) (cur : Bool) (h : blankEnv v = true) :
    ovrBool v cur = cur := by
  cases v with
  | none => rfl
  | some s =>
    unfold blankEnv at h
    unfold ovrBool truthyStr
    simp at h
    simp [h]

theorem ovrBool_set (cur : Bool) (s : String) (h : blankEnv (some s) = false) :
    ovrBool (some s) cur = ["true", "1", "yes", "on"].contains (pyLower s) := by
  unfold blankEnv at h
  unfold ovrBool truthyStr
  simp at h
  simp [h]

theorem ovrList_blank (v : Option String) (cur : List String) (h : blankEnv v = true) :
    ovrList v cur = cur := by
  cases v with
  | none => rfl
  | some s =>
    unfold blankEnv at h
    unfold ovrList truthyStr
    simp at h
    simp [h]

theorem ovrList_set (cur : List String) (s : String) (h : blankEnv (some s) = false) :
    ovrList (some s) cur = ((pySplitComma s).map pyStrip).filter (fun i => i != "") := by
  unfold blankEnv at h
  unfold ovrList truthyStr
  simp at h
  simp [h]

theorem ovrFloat_blank (v : Option String) (cur : Rat) (h : blankEnv v = true) :
    ovrFloat v cur = Except.ok cur := by
  cases v with
  | none => rfl
  | some s =>
    unfold blankEnv at h
    unfold ovrFloat truthyStr
    simp at h
    simp [h]

theorem ovrFloat_set (cur : Rat) (s : String) (q : Rat)
    (h : blankEnv (some s) = false) (hq : pyParseFloat s = some q) :
    ovrFloat (some s) cur = Except.ok q := by
  unfold blankEnv at h
  unfold ovrFloat truthyStr
  simp at h
  simp [h, hq]

theorem ovrInt_blank (v : Option String) (cur : Int) (h : blankEnv v = true) :
    ovrInt v cur = Except.ok cur := by
  cases v with
  | none => rfl
  | some s =>
    unfold blankEnv at h
    unfold ovrInt truthyStr
    simp at h
    simp [h]

theorem ovrInt_set (cur : Int) (s : String) (n : Int)
    (h : blankEnv (some s) = false) (hn : pyParseInt s = some n) :
    ovrInt (some s) cur = Except.ok n := by
  unfold blankEnv at h
  unfold ovrInt truthyStr
  simp at h
  simp [h, hn]

/-- Inversion of a successful `_apply_env_overrides` run: the two numeric
conversions succeeded and the result is the field-by-field override of the
input. -/
theorem applyEnvOverrides_ok_inv (e : Env) (c c' : Config)
    (h : applyEnvOverrides e c = Except.ok c') :
    ∃ rating delay,
      ovrFloat e.filtersMinRating c.filters.min_tmdb_rating = Except.ok rating
      ∧ ovrInt e.requestDelayMinutes c.request_delay_minutes = Except.ok delay
      ∧ c' =
        { overseerr_api_url := ovrStr e.overseerrApiUrl c.overseerr_api_url
          overseerr_api_key := ovrStr e.overseerrApiKey c.overseerr_api_key
          riven_api_url := ovrStr e.rivenApiUrl c.riven_api_url
          riven_api_key := ovrStr e.rivenApiKey c.riven_api_key
          tmdb_api_key := ovrStr e.tmdbApiKey c.tmdb_api_key
          filters :=
            { min_tmdb_rating := rating
              exclude_adult := ovrBool e.filtersExcludeAdult c.filters.exclude_adult
              allowed_languages :=
                ovrList e.filtersAllowedLanguages c.filters.allowed_languages
              excluded_genres :=
                ovrList e.filtersExcludedGenres c.filters.excluded_genres
              excluded_certifications :=
                ovrList e.filtersExcludedCerts c.filters.excluded_certifications }
          release_source := ovrStr e.releaseSource c.release_source
          run_time := ovrStr e.runTime c.run_time
          request_delay_minutes := delay
          logging_level := ovrStr e.loggingLevel c.logging_level
          discord_webhook_url := ovrStr e.discordWebhookUrl c.discord_webhook_url } := by
  unfold applyEnvOverrides at h
  cases hf : ovrFloat e.filtersMinRating c.filters.min_tmdb_rating with
  | error m => simp only [hf] at h; exact Except.noConfusion h
  | ok rating =>
    simp only [hf] at h
    cases hi : ovrInt e.requestDelayMinutes c.request_delay_minutes with
    | error m => simp only [hi] at h; exact Except.noConfusion h
    | ok delay =>
      simp only [hi] at h
      injection h with h
      exact ⟨rating, delay, rfl, rfl, h.symm⟩

/-- C10: for every supported override variable, an unset, empty or
whitespace-only environment value leaves the corresponding configuration
entry unchanged, and a non-blank value replaces it after conversion to the
mapped type (string stored raw, bool via the lowered truthy-literal set,
comma-separated list split/stripped/filtered, float and int parsed). -/
theorem applyEnvOverrides_blank_keeps (e : Env) (c c' : Config)
    (h : applyEnvOverrides e c = Except.ok c') :
    ((blankEnv e.overseerrApiKey = true → c'.overseerr_api_key = c.overseerr_api_key)
      ∧ (∀ s, e.overseerrApiKey = some s → blankEnv e.overseerrApiKey = false →
          c'.overseerr_api_key = s))
    ∧ ((blankEnv e.overseerrApiUrl = true → c'.overseerr_api_url = c.overseerr_api_url)
      ∧ (∀ s, e.overseerrApiUrl = some s → blankEnv e.overseerrApiUrl = false →
          c'.overseerr_api_url = s))
    ∧ ((blankEnv e.rivenApiKey = true → c'.riven_api_key = c.riven_api_key)
      ∧ (∀ s, e.rivenApiKey = some s → blankEnv e.rivenApiKey = false →
          c'.riven_api_key = s))
    ∧ ((blankEnv e.rivenApiUrl = true → c'.riven_api_url = c.riven_api_url)
      ∧ (∀ s, e.rivenApiUrl = some s → blankEnv e.rivenApiUrl = false →
          c'.riven_api_url = s))
    ∧ ((blankEnv e.tmdbApiKey = true → c'.tmdb_api_key = c.tmdb_api_key)
      ∧ (∀ s, e.tmdbApiKey = some s → blankEnv e.tmdbApiKey = false →
          c'.tmdb_api_key = s))
    ∧ ((blankEnv e.discordWebhookUrl = true →
          c'.discord_webhook_url = c.discord_webhook_url)
      ∧ (∀ s, e.discordWebhookUrl = some s → blankEnv e.discordWebhookUrl = false →
          c'.discord_webhook_url = s))
    ∧ ((blankEnv e.loggingLevel = true → c'.logging_level = c.logging_level)
      ∧ (∀ s, e.loggingLevel = some s → blankEnv e.loggingLevel = false →
          c'.logging_level = s))
    ∧ ((blankEnv e.releaseSource = true → c'.release_source = c.release_source)
      ∧ (∀ s, e.releaseSource = some s → blankEnv e.releaseSource = false →
          c'.release_source = s))
    ∧ ((blankEnv e.runTime = true → c'.run_time = c.run_time)
      ∧ (∀ s, e.runTime = some s → blankEnv e.runTime = false → c'.run_time = s))
    ∧ ((blankEnv e.filtersExcludeAdult = true →
          c'.filters.exclude_adult = c.filters.exclude_adult)
      ∧ (∀ s, e.filtersExcludeAdult = some s → blankEnv e.filtersExcludeAdult = false →
          c'.filters.exclude_adult = ["true", "1", "yes", "on"].contains (pyLower s)))
    ∧ ((blankEnv e.filtersAllowedLanguages = true →
          c'.filters.allowed_languages = c.filters.allowed_languages)
      ∧ (∀ s, e.filtersAllowedLanguages = some s →
          blankEnv e.filtersAllowedLanguages = false →
          c'.filters.allowed_languages
            = ((pySplitComma s).map pyStrip).filter (fun i => i != "")))
    ∧ ((blankEnv e.filtersExcludedGenres = true →
          c'.filters.excluded_genres = c.filters.excluded_genres)
      ∧ (∀ s, e.filtersExcludedGenres = some s →
          blankEnv e.filtersExcludedGenres = false →
          c'.filters.excluded_genres
            = ((pySplitComma s).map pyStrip).filter (fun i => i != "")))
    ∧ ((blankEnv e.filtersExcludedCerts = true →
          c'.filters.excluded_certifications = c.filters.excluded_certifications)
      ∧ (∀ s, e.filtersExcludedCerts = some s →
          blankEnv e.filtersExcludedCerts = false →
          c'.filters.excluded_certifications
            = ((pySplitComma s).map pyStrip).filter (fun i => i != "")))
    ∧ ((blankEnv e.filtersMinRating = true →
          c'.filters.min_tmdb_rating = c.filters.min_tmdb_rating)
      ∧ (∀ s q, e.filtersMinRating = some s → blankEnv e.filtersMinRating = false →
          pyParseFloat s = some q → c'.filters.min_tmdb_rating = q))
    ∧ ((blankEnv e.requestDelayMinutes = true →
          c'.request_delay_minutes = c.request_delay_minutes)
      ∧ (∀ s n, e.requestDelayMinutes = some s → blankEnv e.requestDelayMinutes = false →
          pyParseInt s = some n → c'.request_delay_minutes = n)) := by
  obtain ⟨rating, delay, hf, hi, hc⟩ := applyEnvOverrides_ok_inv e c c' h
  subst hc
  refine ⟨⟨?_, ?_⟩, ⟨?_, ?_⟩, ⟨?_, ?_⟩, ⟨?_, ?_⟩, ⟨?_, ?_⟩, ⟨?_, ?_⟩, ⟨?_, ?_⟩,
    ⟨?_, ?_⟩, ⟨?_, ?_⟩, ⟨?_, ?_⟩, ⟨?_, ?_⟩, ⟨?_, ?_⟩, ⟨?_, ?_⟩, ⟨?_, ?_⟩, ⟨?_, ?_⟩⟩
  · intro hb; exact ovrStr_blank _ _ hb
  · intro s hs hb; rw [hs] at hb ⊢; exact ovrStr_set _ s hb
  · intro hb; exact ovrStr_blank _ _ hb
  · intro s hs hb; rw [hs] at hb ⊢; exact ovrStr_set _ s hb
  · intro hb; exact ovrStr_blank _ _ hb
  · intro s hs hb; rw [hs] at hb ⊢; exact ovrStr_set _ s hb
  · intro hb; exact ovrStr_blank _ _ hb
  · intro s hs hb; rw [hs] at hb ⊢; exact ovrStr_set _ s hb
  · intro hb; exact ovrStr_blank _ _ hb
  · intro s hs hb; rw [hs] at hb ⊢; exact ovrStr_set _ s hb
  · intro hb; exact ovrStr_blank _ _ hb
  · intro s hs hb; rw [hs] at hb ⊢; exact ovrStr_set _ s hb
  · intro hb; exact ovrStr_blank _ _ hb
  · intro s hs hb; rw [hs] at hb ⊢; exact ovrStr_set _ s hb
  · intro hb; exact ovrStr_blank _ _ hb
  · intro s hs hb; rw [hs] at hb ⊢; exact ovrStr_set _ s hb
  · intro hb; exact ovrStr_blank _ _ hb
  · intro s hs hb; rw [hs] at hb ⊢; exact ovrStr_set _ s hb
  · intro hb; exact ovrBool_blank _ _ hb
  · intro s hs hb; rw [hs] at hb ⊢; exact ovrBool_set _ s hb
  · intro hb; exact ovrList_blank _ _ hb
  · intro s hs hb; rw [hs] at hb ⊢; exact ovrList_set _ s hb
  · intro hb; exact ovrList_blank _ _ hb
  · intro s hs hb; rw [hs] at hb ⊢; exact ovrList_set _ s hb
  · intro hb; exact ovrList_blank _ _ hb
  · intro s hs hb; rw [hs] at hb ⊢; exact ovrList_set _ s hb
  · intro hb
    rw [ovrFloat_blank _ _ hb] at hf
    injection hf with hf
    exact hf.symm
  · intro s q hs hb hq
    rw [hs] at hb hf
    rw [ovrFloat_set _ s q hb hq] at hf
    injection hf with hf
    exact hf.symm
  · intro hb
    rw [ovrInt_blank _ _ hb] at hi
    injection hi with hi
    exact hi.symm
  · intro s n hs hb hn
    rw [hs] at hb hi
    rw [ovrInt_set _ s n hb hn] at hi
    injection hi with hi
    exact hi.symm

/-- Witness for C10 at a concrete input: `LOGGING_LEVEL=DEBUG` replaces
the logging level while a whitespace-only `OVERSEERR_API_KEY` leaves the
key unchanged. -/
theorem applyEnvOverrides_blank_keeps_witness :
    ({ defaultConfig with logging_level := "DEBUG" } : Config).logging_level = "DEBUG"
    ∧ ({ defaultConfig with logging_level := "DEBUG" } : Config).overseerr_api_key
        = defaultConfig.overseerr_api_key := by
  have h : applyEnvOverrides
      { loggingLevel := some "DEBUG", overseerrApiKey := some "   " } defaultConfig
      = Except.ok { defaultConfig with logging_level := "DEBUG" } := by decide
  have hm := applyEnvOverrides_blank_keeps
    { loggingLevel := some "DEBUG", overseerrApiKey := some "   " } defaultConfig
    { defaultConfig with logging_level := "DEBUG" } h
  exact ⟨hm.2.2.2.2.2.2.1.2 "DEBUG" rfl (by decide), hm.1.1 (by decide)⟩

end Digitarr
